import Mathlib

set_option maxRecDepth 4000

/-!
Verification of the core of the xrpl_sale Python SDK
(github.com/xrplsale/python-sdk): the HTTP request/retry logic of
`XRPLSaleClient._request` (src/xrpl_sale/client.py), the URL construction it
performs, and the webhook verification/parsing logic of `WebhooksService`
(src/xrpl_sale/services/webhooks.py), shallowly embedded in Lean.

Modelling conventions:
* Python `json` values are the inductive `Json`; machine floats appear only
  as `retry_delay`, modelled as a rational (multiplying a binary float by
  `2 ** attempt` only changes its exponent, so the delay arithmetic is exact
  and agrees with the rational model for all non-overflowing values).
* Fallible Python code returns `Except`/`Option`; raised exceptions are
  explicit constructors that record which Python exception class was raised.
* The network transport is a parameter `outcomes : Nat → AttemptOutcome`
  giving the result of each attempt of the retry loop.
-/

/-- JSON values, as produced by Python `json.loads` and
`aiohttp`'s `response.json()`.  Object fields keep insertion order, as
Python dicts do.  Numbers are modelled as integers; no claim involves
fractional numeric payloads. -/
inductive Json where
  | null : Json
  | bool (b : Bool) : Json
  | num (n : Int) : Json
  | str (s : String) : Json
  | arr (elems : List Json) : Json
  | obj (fields : List (String × Json)) : Json

/-- Python `dict.get(key, default)` on a JSON object's field list. -/
def dictGet (fields : List (String × Json)) (key : String) (dflt : Json) : Json :=
  match fields.lookup key with
  | some v => v
  | none => dflt

/-- Supported environments (src/xrpl_sale/models.py, `Environment`). -/
inductive Environment where
  | production
  | testnet
deriving DecidableEq

/-- Coercion of a raw string into `Environment`, as pydantic performs while
constructing `XRPLSaleConfig`: any string other than the two enum values is
rejected at construction time. -/
def Environment.fromString (s : String) : Option Environment :=
  if s = "production" then some .production
  else if s = "testnet" then some .testnet
  else none

/-- `XRPLSaleConfig` (src/xrpl_sale/client.py lines 26-35), with the source's
field names and defaults.  `max_retries` is an `Int`: the pydantic field
declares a plain `int` with no lower bound, so negative values are accepted
at construction time.  `retry_delay` is a Python float, modelled as a
rational (see the file header). -/
structure XRPLSaleConfig where
  api_key : String
  environment : Environment := .production
  timeout : Int := 30
  debug : Bool := false
  webhook_secret : Option String := none
  max_retries : Int := 3
  retry_delay : ℚ := 1

/-- Outcome of one iteration of `_request`'s `try` block, as produced by the
transport.  `transportError` models an `aiohttp.ClientError` raised while
making the request (connection refused, timeout, DNS failure, ...), carrying
`str(e)`.  `httpResponse` models a received HTTP response together with the
result of `await response.json()`: `some j` when the body parses as JSON and
`none` when it does not, in which case `response.json()` raises
`json.JSONDecodeError` (a `ValueError`, not an `aiohttp.ClientError`, so the
`except aiohttp.ClientError` clause never catches it). -/
inductive AttemptOutcome where
  | transportError (desc : String)
  | httpResponse (status : Nat) (body : Option Json)

/-- Exceptions that can escape `_request`, mirroring
src/xrpl_sale/exceptions.py plus the untyped Python exceptions the body can
raise.  `authenticationError` is `AuthenticationError(message)` (its
`status_code` is fixed to 401 by the class); `apiError` is the generic
`XRPLSaleError(message, status_code=status, details=response_data)` raised
for non-401 error statuses; `networkError` is
`XRPLSaleError("Network error: " + str(e))` raised when retries are
exhausted, with no status code and empty details; `jsonDecodeError` is the
untyped `json.JSONDecodeError` escaping from `response.json()`;
`attributeError` is the untyped `AttributeError` raised by
`response_data.get` when the parsed body is not a dict.  Messages extracted
from a response are `Json` values because `response_data.get("message", ...)`
can produce any JSON value. -/
inductive RequestFailure where
  | authenticationError (message : Json)
  | apiError (message : Json) (status : Nat) (details : Json)
  | networkError (message : String)
  | jsonDecodeError
  | attributeError

/-- Discriminator: is this failure the generic `XRPLSaleError` raised with a
status code and details (client.py lines 157-161)? -/
def RequestFailure.isGenericApiError : RequestFailure → Bool
  | .apiError _ _ _ => true
  | _ => false

/-- Discriminator: is this failure an `AuthenticationError`? -/
def RequestFailure.isAuthError : RequestFailure → Bool
  | .authenticationError _ => true
  | _ => false

/-- Handling of a received HTTP response inside `_request`'s `try` block
(client.py lines 150-163): `await response.json()` runs first (a parse
failure escapes as the untyped `json.JSONDecodeError`); then, for
`status >= 400`, `response_data.get("message", "HTTP {status}")` is
evaluated (an `AttributeError` if the parsed body is not a dict), and the
code raises `AuthenticationError` on 401 and the generic `XRPLSaleError`
with `status_code=status`, `details=response_data` otherwise; on
`status < 400` the parsed body is returned as-is. -/
def handleResponse (status : Nat) (body : Option Json) : Except RequestFailure Json :=
  match body with
  | none => .error .jsonDecodeError
  | some response_data =>
    if 400 ≤ status then
      match response_data with
      | .obj fields =>
        let error_message := dictGet fields "message" (.str ("HTTP " ++ toString status))
        if status = 401 then .error (.authenticationError error_message)
        else .error (.apiError error_message status response_data)
      | _ => .error .attributeError
    else .ok response_data

/-- Observable behaviour of one `_request` call: how many attempts were
made, which delays `asyncio.sleep` was given (in order), and the final
outcome.  `Except.ok none` is the implicit Python `None` returned when the
`for` loop runs zero iterations (possible only for `max_retries < 0`);
`Except.ok (some j)` is `return response_data`. -/
structure RequestTrace where
  attempts : Nat
  sleeps : List ℚ
  result : Except RequestFailure (Option Json)

/-- The retry loop of `_request` (client.py lines 138-172).  `idxs` is the
remaining part of `range(max_retries + 1)`, `count` the number of attempts
performed so far, and `acc` the delays slept so far in reverse order.  A
transport error on the last allowed attempt (`attempt == max_retries`)
raises the network error; an earlier transport error sleeps
`retry_delay * 2 ** attempt` and retries; any received response ends the
loop via `handleResponse`. -/
def runAttempts (cfg : XRPLSaleConfig) (outcomes : Nat → AttemptOutcome) :
    List Nat → Nat → List ℚ → RequestTrace
  | [], count, acc => ⟨count, acc.reverse, .ok none⟩
  | attempt :: rest, count, acc =>
    match outcomes attempt with
    | .transportError desc =>
      if (attempt : Int) = cfg.max_retries then
        ⟨count + 1, acc.reverse, .error (.networkError ("Network error: " ++ desc))⟩
      else
        runAttempts cfg outcomes rest (count + 1) (cfg.retry_delay * 2 ^ attempt :: acc)
    | .httpResponse status body =>
      match handleResponse status body with
      | .ok j => ⟨count + 1, acc.reverse, .ok (some j)⟩
      | .error e => ⟨count + 1, acc.reverse, .error e⟩

/-- `XRPLSaleClient._request` (client.py lines 110-172), with the transport
modelled by `outcomes`.  The loop iterates over
`range(self.config.max_retries + 1)`. -/
def _request (cfg : XRPLSaleConfig) (outcomes : Nat → AttemptOutcome) : RequestTrace :=
  runAttempts cfg outcomes (List.range (cfg.max_retries + 1).toNat) 0 []

/-- Split a character list at `'/'` boundaries (so that
`"/api"` yields `["", "api"]`), as Python's `"/api".split('/')` does. -/
def splitSegments : List Char → List (List Char)
  | [] => [[]]
  | c :: rest =>
    if c = '/' then [] :: splitSegments rest
    else
      match splitSegments rest with
      | s :: ss => (c :: s) :: ss
      | [] => [[c]]

/-- Drop the last `'/'`-separated segment of a path, keeping the leading
directory (`"/api"` becomes `""`, `"/api/v1"` becomes `"/api"`): this is how
RFC 3986 merges a relative reference onto a base path, as
`urllib.parse.urljoin` implements it. -/
def dropLastSegment (p : List Char) : List Char :=
  List.intercalate ['/'] ((splitSegments p).dropLast)

/-- Split a URL's characters at the first `"://"`, returning the scheme part
and the remainder, or `none` when no `"://"` occurs. -/
def splitScheme : List Char → Option (List Char × List Char)
  | [] => none
  | ':' :: '/' :: '/' :: rest => some ([], rest)
  | c :: rest =>
    match splitScheme rest with
    | some (a, b) => some (c :: a, b)
    | none => none

/-- Python `urllib.parse.urljoin`, restricted to the shapes the SDK
exercises: an absolute `scheme://netloc/path` base URL and a reference that
carries no scheme or authority of its own and no `"."`/`".."` segments
(every endpoint the SDK's services pass starts with `"/"`).  Per RFC 3986
resolution: an empty reference keeps the base; a network-path reference
(`"//..."`) keeps only the scheme; an absolute-path reference (`"/..."`)
keeps scheme and authority and REPLACES the base path entirely; any other
reference is merged onto the base path with its last segment dropped. -/
def urljoin (base url : String) : String :=
  match splitScheme base.data with
  | none => url
  | some (scheme, rest) =>
    let netloc := rest.takeWhile (fun c => c ≠ '/')
    let basePath := rest.drop netloc.length
    if url = "" then base
    else
      match url.data with
      | '/' :: '/' :: _ => String.mk (scheme ++ ':' :: url.data)
      | '/' :: _ => String.mk (scheme ++ ':' :: '/' :: '/' :: netloc ++ url.data)
      | _ =>
        String.mk (scheme ++ ':' :: '/' :: '/' :: netloc ++
          dropLastSegment basePath ++ '/' :: url.data)

/-- `XRPLSaleClient._get_base_url` (client.py lines 72-79): the fixed base
URL for each environment.  The `else` branch raising `ValueError` is
unreachable once the `Environment` enum value exists; a non-enum string is
already rejected by pydantic when the config is constructed (see
`Environment.fromString`). -/
def _get_base_url : Environment → String
  | .production => "https://xrpl.sale/api"
  | .testnet => "https://testnet.xrpl.sale/api"

/-- The URL `_request` targets (client.py line 136):
`urljoin(self.base_url, endpoint)` where `self.base_url` is
`_get_base_url(config.environment)`. -/
def requestUrl (env : Environment) (endpoint : String) : String :=
  urljoin (_get_base_url env) endpoint

/-! ## Webhook signature verification (src/xrpl_sale/services/webhooks.py)

The verification path is `verify_signature`: resolve the secret
(`secret or self.webhook_secret`, raising `XRPLSaleError` when the result is
falsy), HMAC-SHA256 the UTF-8 payload bytes with the secret as key, format
as `"sha256=" + hexdigest`, and compare with `hmac.compare_digest`.
SHA-256 and HMAC are embedded in full (FIPS 180-4 / RFC 2104, as
implemented by Python's `hashlib`/`hmac`); bytes are `Nat` values < 256 and
words are `Nat` values < 2^32 with explicit `% 2^32` where overflow
matters. -/

/-- The UTF-8 bytes of a Python `str`, as `payload.encode('utf-8')` and
`secret.encode('utf-8')` produce (byte values as `Nat`). -/
def strBytes (s : String) : List Nat :=
  s.data.flatMap (fun c => (String.utf8EncodeChar c).map (fun b => b.toNat))

/-- The SHA-256 word modulus `2 ^ 32`. -/
def m32 : Nat := 4294967296

/-- Right rotation of a 32-bit word. -/
def rotr32 (n x : Nat) : Nat := ((x >>> n) ||| (x <<< (32 - n))) % m32

/-- SHA-256 big sigma 0. -/
def bsig0 (x : Nat) : Nat := rotr32 2 x ^^^ rotr32 13 x ^^^ rotr32 22 x

/-- SHA-256 big sigma 1. -/
def bsig1 (x : Nat) : Nat := rotr32 6 x ^^^ rotr32 11 x ^^^ rotr32 25 x

/-- SHA-256 small sigma 0. -/
def ssig0 (x : Nat) : Nat := rotr32 7 x ^^^ rotr32 18 x ^^^ (x >>> 3)

/-- SHA-256 small sigma 1. -/
def ssig1 (x : Nat) : Nat := rotr32 17 x ^^^ rotr32 19 x ^^^ (x >>> 10)

/-- SHA-256 choose function. -/
def shaCh (x y z : Nat) : Nat := (x &&& y) ^^^ ((x ^^^ (m32 - 1)) &&& z)

/-- SHA-256 majority function. -/
def shaMaj (x y z : Nat) : Nat := (x &&& y) ^^^ (x &&& z) ^^^ (y &&& z)

/-- The 64 SHA-256 round constants (FIPS 180-4 section 4.2.2, written in
decimal). -/
def sha256K : List Nat :=
  [1116352408, 1899447441, 3049323471, 3921009573, 961987163,
   1508970993, 2453635748, 2870763221, 3624381080, 310598401,
   607225278, 1426881987, 1925078388, 2162078206, 2614888103,
   3248222580, 3835390401, 4022224774, 264347078, 604807628,
   770255983, 1249150122, 1555081692, 1996064986, 2554220882,
   2821834349, 2952996808, 3210313671, 3336571891, 3584528711,
   113926993, 338241895, 666307205, 773529912, 1294757372,
   1396182291, 1695183700, 1986661051, 2177026350, 2456956037,
   2730485921, 2820302411, 3259730800, 3345764771, 3516065817,
   3600352804, 4094571909, 275423344, 430227734, 506948616,
   659060556, 883997877, 958139571, 1322822218, 1537002063,
   1747873779, 1955562222, 2024104815, 2227730452, 2361852424,
   2428436474, 2756734187, 3204031479, 3329325298]

/-- The SHA-256 initial hash state (FIPS 180-4 section 5.3.3, in
decimal). -/
def sha256H0 : List Nat :=
  [1779033703, 3144134277, 1013904242, 2773480762,
   1359893119, 2600822924, 528734635, 1541459225]

/-- Big-endian byte encoding of a value into `k` bytes. -/
def beBytes : Nat → Nat → List Nat
  | 0, _ => []
  | k + 1, v => beBytes k (v / 256) ++ [v % 256]

/-- SHA-256 message padding: append `0x80`, zero bytes to 56 mod 64, and
the 8-byte big-endian bit length. -/
def sha256Pad (msg : List Nat) : List Nat :=
  msg ++ 0x80 :: List.replicate ((64 - ((msg.length + 9) % 64)) % 64) 0 ++
    beBytes 8 (msg.length * 8)

/-- Group a byte list into big-endian 32-bit words. -/
def toWords32 : List Nat → List Nat
  | a :: b :: c :: d :: rest => (((a * 256 + b) * 256 + c) * 256 + d) :: toWords32 rest
  | _ => []

/-- Split a list into chunks of 64 elements (fuel-driven; the fuel is the
list length, which bounds the number of chunks). -/
def chunksAux : Nat → List Nat → List (List Nat)
  | 0, _ => []
  | _, [] => []
  | fuel + 1, l => l.take 64 :: chunksAux fuel (l.drop 64)

/-- Split a byte list into its 64-byte SHA-256 blocks. -/
def chunks64 (l : List Nat) : List (List Nat) := chunksAux l.length l

/-- Extend 16 message-schedule words to 64. -/
def extendWords (w : List Nat) : List Nat :=
  (List.range 48).foldl
    (fun w _ =>
      let n := w.length
      w ++ [(ssig1 (w.getD (n - 2) 0) + w.getD (n - 7) 0 +
             ssig0 (w.getD (n - 15) 0) + w.getD (n - 16) 0) % m32])
    w

/-- The SHA-256 compression function for one 64-byte block. -/
def compressBlock (h : List Nat) (block : List Nat) : List Nat :=
  let w := extendWords (toWords32 block)
  let s := (List.range 64).foldl
    (fun st i =>
      match st with
      | [a, b, c, d, e, f, g, hh] =>
        let t1 := (hh + bsig1 e + shaCh e f g + sha256K.getD i 0 + w.getD i 0) % m32
        let t2 := (bsig0 a + shaMaj a b c) % m32
        [(t1 + t2) % m32, a, b, c, (d + t1) % m32, e, f, g]
      | st => st)
    h
  (h.zip s).map (fun p => (p.1 + p.2) % m32)

/-- SHA-256 of a byte list, as a list of 32 bytes. -/
def sha256 (msg : List Nat) : List Nat :=
  ((chunks64 (sha256Pad msg)).foldl compressBlock sha256H0).foldr
    (fun w acc => beBytes 4 w ++ acc) []

/-- Lowercase hex digit for a value below 16. -/
def hexChar (n : Nat) : Char :=
  if n < 10 then Char.ofNat (48 + n) else Char.ofNat (87 + n)

/-- Lowercase hex encoding of a byte list, as Python's `.hexdigest()`. -/
def bytesToHex (bs : List Nat) : String :=
  String.mk (bs.foldr (fun b acc => hexChar (b / 16) :: hexChar (b % 16) :: acc) [])

/-- The HMAC key padded to the 64-byte SHA-256 block: keys longer than one
block are hashed first, then the key is zero-padded to 64 bytes (RFC 2104,
as Python's `hmac.new` does for SHA-256). -/
def hmacBlockKey (key : List Nat) : List Nat :=
  let k0 := if 64 < key.length then sha256 key else key
  k0 ++ List.replicate (64 - k0.length) 0

/-- HMAC-SHA256 of a message under a key, as a list of 32 bytes. -/
def hmacSha256 (key msg : List Nat) : List Nat :=
  let k := hmacBlockKey key
  sha256 ((k.map (fun b => b ^^^ 0x5c)) ++
    sha256 ((k.map (fun b => b ^^^ 0x36)) ++ msg))

/-- The expected signature string `verify_signature` computes
(webhooks.py lines 34-40): `"sha256=" + hexdigest of the HMAC`. -/
def expected_signature (secret payload : String) : String :=
  "sha256=" ++ bytesToHex (hmacSha256 (strBytes secret) (strBytes payload))

/-! ### Constant-time comparison (CPython `hmac.compare_digest`) -/

/-- The comparison loop of CPython's `_tscmp` (`Modules/_operator.c`),
instrumented with a step counter: it traverses ALL pairs, accumulating the
bitwise OR of XORs, with no early exit.  The step count is the model of
execution time. -/
def ctLoop : List (Nat × Nat) → Nat → Nat → Nat × Nat
  | [], r, steps => (r, steps)
  | (x, y) :: rest, r, steps => ctLoop rest (r ||| (x ^^^ y)) (steps + 1)

/-- CPython `hmac.compare_digest` on ASCII strings, following `_tscmp`: the
loop length is the length of the second argument `b`; when the lengths
differ the accumulator starts at 1 (so the result is false) and `b` is
compared against itself, still traversing all of `b`.  Returns the boolean
verdict together with the number of loop iterations performed. -/
def tscmp (a b : List Nat) : Bool × Nat :=
  let left := if a.length = b.length then a else b
  let r0 := if a.length = b.length then 0 else 1
  ((ctLoop (left.zip b) r0 0).1 == 0, (ctLoop (left.zip b) r0 0).2)

/-- `hmac.compare_digest(a, b)` on strings, comparing character values. -/
def compare_digest (a b : String) : Bool :=
  (tscmp (a.data.map Char.toNat) (b.data.map Char.toNat)).1

/-- The number of comparison-loop iterations `hmac.compare_digest(a, b)`
performs: the model of its execution time. -/
def compare_digest_steps (a b : String) : Nat :=
  (tscmp (a.data.map Char.toNat) (b.data.map Char.toNat)).2

/-! ### The webhook service operations -/

/-- Failures of the webhook service operations.  `xrplSaleError` is the
typed SDK error (`XRPLSaleError(message)`, no status code): raised directly
for a missing secret in `verify_signature`, and raised by the
`except (json.JSONDecodeError, TypeError)` handler of `parse_webhook`.
`pydanticValidationError` is the UNTYPED `pydantic.ValidationError` (a
`ValueError` subclass, not a `TypeError`) that escapes `parse_webhook` when
`WebhookEvent(**data)` rejects its fields, since the except clause does not
catch it. -/
inductive WebhookFailure where
  | xrplSaleError (message : String)
  | pydanticValidationError

/-- Discriminator: is this the typed `XRPLSaleError` (as opposed to an
untyped exception escaping the service)? -/
def WebhookFailure.isTyped : WebhookFailure → Bool
  | .xrplSaleError _ => true
  | .pydanticValidationError => false

/-- Python truthiness of an optional string: `None` and `""` are falsy. -/
def optTruthy : Option String → Bool
  | none => false
  | some s => s != ""

/-- `WebhooksService.verify_signature` (webhooks.py lines 20-43), with the
instance attribute `self.webhook_secret` passed explicitly as
`instanceSecret`.  `secret_to_use = secret or self.webhook_secret`; a falsy
result raises `XRPLSaleError`; otherwise the expected signature is computed
and compared with `hmac.compare_digest`. -/
def verify_signature (payload signature : String)
    (secret instanceSecret : Option String) : Except WebhookFailure Bool :=
  match (if optTruthy secret then secret else instanceSecret) with
  | none => .error (.xrplSaleError "Webhook secret is required for signature verification")
  | some s =>
    if s = "" then
      .error (.xrplSaleError "Webhook secret is required for signature verification")
    else
      .ok (compare_digest (expected_signature s payload) signature)

/-! ## Webhook payload parsing (`WebhooksService.parse_webhook`)

`parse_webhook` decodes the payload, runs `json.loads`, and constructs
`WebhookEvent(**data)`.  Its `except` clause catches only
`json.JSONDecodeError` (invalid JSON) and `TypeError` (`**`-unpacking a
non-mapping), turning them into the typed `XRPLSaleError`; a
`pydantic.ValidationError` raised by the model constructor is NOT caught
and escapes untyped.  `json.loads` is embedded as a recursive-descent
parser of the JSON grammar (integers only, matching the `Json` model). -/

/-- An opening curly brace character. -/
def lbrace : Char := Char.ofNat 123

/-- A closing curly brace character. -/
def rbrace : Char := Char.ofNat 125

/-- Drop leading JSON whitespace. -/
def skipWs (cs : List Char) : List Char :=
  cs.dropWhile (fun c => c = ' ' || c = '\t' || c = '\n' || c = '\r')

/-- Is this character an ASCII digit? -/
def isDigitChar (c : Char) : Bool := 48 ≤ c.toNat && c.toNat ≤ 57

/-- Value of a digit list read in base 10. -/
def digitsToNat (ds : List Char) : Nat :=
  ds.foldl (fun a c => a * 10 + (c.toNat - 48)) 0

/-- Value of four hex digits (for `\uXXXX` escapes); `none` on a non-hex
character. -/
def hex4 (a b c d : Char) : Option Nat :=
  let hv := fun (c : Char) =>
    if 48 ≤ c.toNat && c.toNat ≤ 57 then some (c.toNat - 48)
    else if 97 ≤ c.toNat && c.toNat ≤ 102 then some (c.toNat - 87)
    else if 65 ≤ c.toNat && c.toNat ≤ 70 then some (c.toNat - 55)
    else none
  match hv a, hv b, hv c, hv d with
  | some x, some y, some z, some w => some (((x * 16 + y) * 16 + z) * 16 + w)
  | _, _, _, _ => none

/-- Parse the remainder of a JSON string literal (after the opening quote),
returning its characters and the rest of the input.  Handles the JSON
escapes and rejects unescaped control characters, as `json.loads` does. -/
def parseStrChars : Nat → List Char → Option (List Char × List Char)
  | 0, _ => none
  | fuel + 1, cs =>
    match cs with
    | [] => none
    | '"' :: rest => some ([], rest)
    | '\\' :: e :: rest =>
      let esc : Option (Char × List Char) :=
        if e = '"' then some ('"', rest)
        else if e = '\\' then some ('\\', rest)
        else if e = '/' then some ('/', rest)
        else if e = 'b' then some ('\x08', rest)
        else if e = 'f' then some ('\x0c', rest)
        else if e = 'n' then some ('\n', rest)
        else if e = 'r' then some ('\r', rest)
        else if e = 't' then some ('\t', rest)
        else if e = 'u' then
          match rest with
          | a :: b :: c :: d :: rest' =>
            match hex4 a b c d with
            | some n => some (Char.ofNat n, rest')
            | none => none
          | _ => none
        else none
      match esc with
      | some (c, rest') =>
        match parseStrChars fuel rest' with
        | some (s, rem) => some (c :: s, rem)
        | none => none
      | none => none
    | c :: rest =>
      if c.toNat < 32 then none
      else
        match parseStrChars fuel rest with
        | some (s, rem) => some (c :: s, rem)
        | none => none

/-- Parse a JSON integer literal (optional minus, digits, no leading zero),
or fail: fractional and exponent forms are outside the `Json` model. -/
def parseIntLit (cs : List Char) : Option (Json × List Char) :=
  let signed := match cs with
    | '-' :: rest => (true, rest)
    | _ => (false, cs)
  let ds := signed.2.takeWhile isDigitChar
  if ds.isEmpty then none
  else if 1 < ds.length && ds.headD '0' = '0' then none
  else
    let n : Int := Int.ofNat (digitsToNat ds)
    some (.num (if signed.1 then -n else n), signed.2.drop ds.length)

mutual

/-- Parse one JSON value (fuel-driven recursive descent over the grammar
that `json.loads` accepts, restricted to integer numbers). -/
def parseVal : Nat → List Char → Option (Json × List Char)
  | 0, _ => none
  | fuel + 1, cs =>
    match skipWs cs with
    | [] => none
    | c :: rest =>
      if c = 'n' then
        if ['u', 'l', 'l'].isPrefixOf rest then some (.null, rest.drop 3) else none
      else if c = 't' then
        if ['r', 'u', 'e'].isPrefixOf rest then some (.bool true, rest.drop 3) else none
      else if c = 'f' then
        if ['a', 'l', 's', 'e'].isPrefixOf rest then some (.bool false, rest.drop 4)
        else none
      else if c = '"' then
        match parseStrChars fuel rest with
        | some (s, rem) => some (.str (String.mk s), rem)
        | none => none
      else if c = '[' then
        match skipWs rest with
        | ']' :: rem => some (.arr [], rem)
        | _ =>
          match parseElems fuel rest with
          | some (es, rem) => some (.arr es, rem)
          | none => none
      else if c = lbrace then
        match skipWs rest with
        | d :: rem =>
          if d = rbrace then some (.obj [], rem)
          else
            match parseMembers fuel (d :: rem) with
            | some (fs, rem') => some (.obj fs, rem')
            | none => none
        | [] => none
      else parseIntLit (c :: rest)

/-- Parse the comma-separated elements of a JSON array, including the
closing bracket. -/
def parseElems : Nat → List Char → Option (List Json × List Char)
  | 0, _ => none
  | fuel + 1, cs =>
    match parseVal fuel cs with
    | some (v, rem) =>
      match skipWs rem with
      | ',' :: rem' =>
        match parseElems fuel rem' with
        | some (vs, rem'') => some (v :: vs, rem'')
        | none => none
      | ']' :: rem' => some ([v], rem')
      | _ => none
    | none => none

/-- Parse the comma-separated members of a JSON object, including the
closing brace. -/
def parseMembers : Nat → List Char → Option (List (String × Json) × List Char)
  | 0, _ => none
  | fuel + 1, cs =>
    match skipWs cs with
    | '"' :: rest =>
      match parseStrChars fuel rest with
      | some (k, rem) =>
        match skipWs rem with
        | ':' :: rem' =>
          match parseVal fuel rem' with
          | some (v, rem'') =>
            match skipWs rem'' with
            | ',' :: rem3 =>
              match parseMembers fuel rem3 with
              | some (fs, rem4) => some ((String.mk k, v) :: fs, rem4)
              | none => none
            | d :: rem3 =>
              if d = rbrace then some ([(String.mk k, v)], rem3) else none
            | [] => none
          | none => none
        | _ => none
      | none => none
    | _ => none

end

/-- Python `json.loads`: parse one JSON document and require that only
whitespace remains.  The fuel bounds the recursion depth; every recursive
step consumes at least one input character, so twice the length plus a
constant suffices. -/
def json_loads (s : String) : Option Json :=
  match parseVal (2 * s.length + 8) s.data with
  | some (j, rem) => if skipWs rem = [] then some j else none
  | none => none

/-- Webhook event types (src/xrpl_sale/models.py, `WebhookEventType`). -/
inductive WebhookEventType where
  | project_created
  | project_updated
  | project_launched
  | project_completed
  | investment_created
  | investment_confirmed
  | investment_failed
  | tier_completed
  | tokens_distributed
deriving DecidableEq

/-- The string-enum values of `WebhookEventType`, as pydantic coerces them:
any other string is rejected. -/
def WebhookEventType.fromString (s : String) : Option WebhookEventType :=
  if s = "project.created" then some .project_created
  else if s = "project.updated" then some .project_updated
  else if s = "project.launched" then some .project_launched
  else if s = "project.completed" then some .project_completed
  else if s = "investment.created" then some .investment_created
  else if s = "investment.confirmed" then some .investment_confirmed
  else if s = "investment.failed" then some .investment_failed
  else if s = "tier.completed" then some .tier_completed
  else if s = "tokens.distributed" then some .tokens_distributed
  else none

/-- Result of pydantic v1 datetime coercion: a numeric POSIX timestamp or
an accepted ISO-8601 text.  The raw accepted form is kept (no claim
inspects calendar fields). -/
inductive PyDatetime where
  | fromUnix (n : Int)
  | fromIso (s : String)

/-- Acceptance of an ISO-8601 datetime string, modelling the date/time part
of pydantic v1's `parse_datetime` grammar: `YYYY-MM-DD`, optionally
followed by `T` or a space and `HH:MM`, optional `:SS`, optional fractional
seconds, and an optional `Z` or `±HH:MM` offset. -/
def isIsoDatetime (s : String) : Bool :=
  match s.data with
  | y1 :: y2 :: y3 :: y4 :: '-' :: m1 :: m2 :: '-' :: d1 :: d2 :: rest =>
    ([y1, y2, y3, y4, m1, m2, d1, d2].all isDigitChar) &&
    (match rest with
     | [] => true
     | sep :: h1 :: h2 :: ':' :: n1 :: n2 :: rest' =>
       (sep = 'T' || sep = ' ') && ([h1, h2, n1, n2].all isDigitChar) &&
       (let rest'' := match rest' with
          | ':' :: s1 :: s2 :: r =>
            if isDigitChar s1 && isDigitChar s2 then
              match r with
              | '.' :: r' => r'.dropWhile isDigitChar
              | _ => r
            else r
          | _ => rest'
        match rest'' with
        | [] => true
        | ['Z'] => true
        | sgn :: o1 :: o2 :: ':' :: o3 :: o4 :: [] =>
          (sgn = '+' || sgn = '-') && ([o1, o2, o3, o4].all isDigitChar)
        | _ => false)
     | _ => false)
  | _ => false

/-- pydantic v1 coercion into a `str` field: strings pass through, numbers
are stringified. -/
def coerceStr : Json → Option String
  | .str s => some s
  | .num n => some (toString n)
  | _ => none

/-- pydantic v1 coercion into the `WebhookEventType` str-enum field. -/
def coerceEventType : Json → Option WebhookEventType
  | .str s => WebhookEventType.fromString s
  | _ => none

/-- pydantic v1 coercion into a `Dict[str, Any]` field. -/
def coerceDict : Json → Option (List (String × Json))
  | .obj fs => some fs
  | _ => none

/-- pydantic v1 coercion into a `datetime` field. -/
def coerceDatetime : Json → Option PyDatetime
  | .num n => some (.fromUnix n)
  | .str s => if isIsoDatetime s then some (.fromIso s) else none
  | _ => none

/-- The `WebhookEvent` pydantic model (src/xrpl_sale/models.py lines
149-156). -/
structure WebhookEvent where
  id : String
  type : WebhookEventType
  data : List (String × Json)
  timestamp : PyDatetime
  version : String

/-- Validation performed by `WebhookEvent(**data)`: each required field
must be present and coerce to its declared type; extra fields are ignored
(pydantic v1 default).  `none` models a raised
`pydantic.ValidationError`. -/
def validateWebhookEvent (fields : List (String × Json)) : Option WebhookEvent :=
  match (fields.lookup "id").bind coerceStr with
  | none => none
  | some i =>
    match (fields.lookup "type").bind coerceEventType with
    | none => none
    | some t =>
      match (fields.lookup "data").bind coerceDict with
      | none => none
      | some d =>
        match (fields.lookup "timestamp").bind coerceDatetime with
        | none => none
        | some ts =>
          match (fields.lookup "version").bind coerceStr with
          | none => none
          | some v => some ⟨i, t, d, ts, v⟩

/-- `WebhooksService.parse_webhook` (webhooks.py lines 45-54): decode,
`json.loads`, then `WebhookEvent(**data)`.  Invalid JSON raises
`json.JSONDecodeError` and a non-mapping top-level value raises `TypeError`
at `**`-unpacking; both are caught and re-raised as the typed
`XRPLSaleError`.  A field-validation failure raises
`pydantic.ValidationError`, which the except clause does NOT catch, so it
escapes untyped. -/
def parse_webhook (payload : String) : Except WebhookFailure WebhookEvent :=
  match json_loads payload with
  | none => .error (.xrplSaleError "Invalid webhook payload")
  | some (.obj fields) =>
    match validateWebhookEvent fields with
    | some e => .ok e
    | none => .error .pydanticValidationError
  | some _ => .error (.xrplSaleError "Invalid webhook payload")

/-! ## General lemmas about the retry loop -/

/-- One-step unfolding of the retry loop on a non-empty index list. -/
theorem runAttempts_cons (cfg : XRPLSaleConfig) (outcomes : Nat → AttemptOutcome)
    (attempt : Nat) (rest : List Nat) (count : Nat) (acc : List ℚ) :
    runAttempts cfg outcomes (attempt :: rest) count acc =
      match outcomes attempt with
      | .transportError desc =>
        if (attempt : Int) = cfg.max_retries then
          ⟨count + 1, acc.reverse, .error (.networkError ("Network error: " ++ desc))⟩
        else
          runAttempts cfg outcomes rest (count + 1) (cfg.retry_delay * 2 ^ attempt :: acc)
      | .httpResponse status body =>
        match handleResponse status body with
        | .ok j => ⟨count + 1, acc.reverse, .ok (some j)⟩
        | .error e => ⟨count + 1, acc.reverse, .error e⟩ := rfl

/-- One-step unfolding of the retry loop when the next attempt fails at the
transport level. -/
theorem runAttempts_cons_transport (cfg : XRPLSaleConfig)
    (outcomes : Nat → AttemptOutcome) (attempt : Nat) (rest : List Nat)
    (count : Nat) (acc : List ℚ) (desc : String)
    (h : outcomes attempt = .transportError desc) :
    runAttempts cfg outcomes (attempt :: rest) count acc =
      if (attempt : Int) = cfg.max_retries then
        ⟨count + 1, acc.reverse, .error (.networkError ("Network error: " ++ desc))⟩
      else
        runAttempts cfg outcomes rest (count + 1) (cfg.retry_delay * 2 ^ attempt :: acc) := by
  rw [runAttempts_cons, h]

/-- One-step unfolding of the retry loop when the next attempt receives an
HTTP response: the loop ends with the verdict of `handleResponse`. -/
theorem runAttempts_cons_response (cfg : XRPLSaleConfig)
    (outcomes : Nat → AttemptOutcome) (attempt : Nat) (rest : List Nat)
    (count : Nat) (acc : List ℚ) (status : Nat) (body : Option Json)
    (h : outcomes attempt = .httpResponse status body) :
    runAttempts cfg outcomes (attempt :: rest) count acc =
      match handleResponse status body with
      | .ok j => ⟨count + 1, acc.reverse, .ok (some j)⟩
      | .error e => ⟨count + 1, acc.reverse, .error e⟩ := by
  rw [runAttempts_cons, h]

/-- Behaviour of the retry loop on a block of consecutive attempt indices
`j, j+1, ..., j+m = max_retries` when every attempt fails at the transport
level: all of them are consumed, each non-final one adds its backoff delay,
and the final one raises the network error. -/
theorem runAttempts_transport_exhausts (cfg : XRPLSaleConfig)
    (outcomes : Nat → AttemptOutcome) (desc : Nat → String) (N : Nat)
    (hmr : cfg.max_retries = (N : Int))
    (hout : ∀ k, k ≤ N → outcomes k = .transportError (desc k)) :
    ∀ m j count acc, j + m = N →
      runAttempts cfg outcomes (List.range' j (m + 1)) count acc =
        ⟨count + m + 1,
         acc.reverse ++ (List.range' j m).map (fun k => cfg.retry_delay * 2 ^ k),
         .error (.networkError ("Network error: " ++ desc N))⟩ := by
  intro m
  induction m with
  | zero =>
    intro j count acc hj
    have hjN : j = N := by omega
    rw [List.range'_succ,
      runAttempts_cons_transport _ _ _ _ _ _ _ (hout j (by omega))]
    subst hjN
    simp only [List.range'_zero]
    rw [if_pos (by rw [hmr])]
    simp
  | succ m ih =>
    intro j count acc hj
    rw [List.range'_succ,
      runAttempts_cons_transport _ _ _ _ _ _ _ (hout j (by omega))]
    have hne : ¬ ((j : Int) = cfg.max_retries) := by rw [hmr]; intro h; omega
    rw [if_neg hne]
    rw [ih (j + 1) (count + 1) (cfg.retry_delay * 2 ^ j :: acc) (by omega)]
    rw [List.range'_succ]
    simp only [List.map_cons, List.reverse_cons, List.append_assoc,
      List.cons_append, List.nil_append]
    congr 1
    omega

/-- When attempt 0 yields an HTTP response, the loop ends on that first
iteration with the verdict of `handleResponse`, no matter how many retries
are configured (as long as the loop runs at all, i.e. `max_retries ≥ 0`). -/
theorem runAttempts_first_response (cfg : XRPLSaleConfig)
    (outcomes : Nat → AttemptOutcome) (status : Nat) (body : Option Json)
    (hmr : 0 ≤ cfg.max_retries)
    (h0 : outcomes 0 = .httpResponse status body) :
    _request cfg outcomes =
      ⟨1, [],
       match handleResponse status body with
       | .ok j => .ok (some j)
       | .error e => .error e⟩ := by
  obtain ⟨m, hm⟩ : ∃ m, (cfg.max_retries + 1).toNat = m + 1 :=
    ⟨cfg.max_retries.toNat, by omega⟩
  unfold _request
  rw [hm, List.range_succ_eq_map,
    runAttempts_cons_response _ _ _ _ _ _ _ _ h0]
  cases handleResponse status body <;> simp

/-! ## Claims about the request/retry core -/

/-- C1: for every config with `max_retries = N` (`N ≥ 0`) and
`retry_delay = d > 0`, if every attempt of a call to `_request` fails at the
transport level, then `_request` performs exactly `N + 1` attempts, sleeps
`d * 2 ^ k` after failed attempt `k` for `k = 0 .. N-1` (so the delay
sequence is `d, 2d, 4d, ...`, and no sleep follows the final attempt), and
after the last attempt raises a network-error `XRPLSaleError` carrying the
underlying cause description. -/
theorem retry_exhaustion_c1 (cfg : XRPLSaleConfig)
    (outcomes : Nat → AttemptOutcome) (desc : Nat → String) (N : Nat)
    (hmr : cfg.max_retries = (N : Int)) (_hd : 0 < cfg.retry_delay)
    (hout : ∀ k, k ≤ N → outcomes k = .transportError (desc k)) :
    (_request cfg outcomes).attempts = N + 1 ∧
    (_request cfg outcomes).sleeps =
      (List.range N).map (fun k => cfg.retry_delay * 2 ^ k) ∧
    (_request cfg outcomes).result =
      .error (.networkError ("Network error: " ++ desc N)) := by
  have h1 : (cfg.max_retries + 1).toNat = N + 1 := by omega
  unfold _request
  rw [h1, List.range_eq_range',
    runAttempts_transport_exhausts cfg outcomes desc N hmr hout N 0 0 [] (by omega)]
  exact ⟨by simp, by simp [List.range_eq_range'], rfl⟩

/-- Witness for `retry_exhaustion_c1`: `max_retries = 2`, `retry_delay = 1`,
every attempt refused at the transport; three attempts, sleeps `1, 2`, and
the network error carrying the cause. -/
theorem retry_exhaustion_c1_witness :
    (_request { api_key := "k", max_retries := 2 }
      (fun _ => .transportError "conn refused")).attempts = 2 + 1 ∧
    (_request { api_key := "k", max_retries := 2 }
      (fun _ => .transportError "conn refused")).sleeps =
      (List.range 2).map (fun k => (1 : ℚ) * 2 ^ k) ∧
    (_request { api_key := "k", max_retries := 2 }
      (fun _ => .transportError "conn refused")).result =
      .error (.networkError ("Network error: " ++ "conn refused")) :=
  retry_exhaustion_c1 _ _ (fun _ => "conn refused") 2 rfl (by norm_num)
    (fun _ _ => rfl)

/-- C2 (amended): for every HTTP response received on the first attempt with
status ≥ 400, status ≠ 401, whose body parses as a JSON OBJECT, `_request`
fails after exactly one attempt with no backoff sleep, raising the generic
`XRPLSaleError` whose `status_code` is the response status, whose `details`
is the full parsed body, and whose message is the body's `"message"` field,
defaulting to `"HTTP {status}"` when absent.  (The original claim quantified
over every JSON body; a body that is valid JSON but not an object instead
crashes with an untyped `AttributeError`, see the counterexample.) -/
theorem http_error_c2 (cfg : XRPLSaleConfig) (outcomes : Nat → AttemptOutcome)
    (status : Nat) (fields : List (String × Json))
    (hmr : 0 ≤ cfg.max_retries)
    (h0 : outcomes 0 = .httpResponse status (some (.obj fields)))
    (h4 : 400 ≤ status) (h401 : status ≠ 401) :
    _request cfg outcomes =
      ⟨1, [], .error (.apiError
        (dictGet fields "message" (.str ("HTTP " ++ toString status)))
        status (.obj fields))⟩ := by
  rw [runAttempts_first_response cfg outcomes status _ hmr h0]
  simp [handleResponse, h4, h401]

/-- Counterexample to C2 as stated: a 404 response whose body parses as the
JSON array `[]` (valid JSON, but not an object) makes
`response_data.get("message", ...)` raise an untyped `AttributeError`; the
call does fail after one attempt, but not with the generic `XRPLSaleError`
the claim requires. -/
theorem http_error_c2_counterexample :
    _request { api_key := "k" } (fun _ => .httpResponse 404 (some (.arr []))) =
      ⟨1, [], .error .attributeError⟩ ∧
    RequestFailure.attributeError.isGenericApiError = false :=
  ⟨rfl, rfl⟩

/-- Witness for `http_error_c2`: status 404, body
`\x7b"message": "Project not found"\x7d`. -/
theorem http_error_c2_witness :
    _request { api_key := "k" }
      (fun _ => .httpResponse 404 (some (.obj [("message", .str "Project not found")]))) =
      ⟨1, [], .error (.apiError (.str "Project not found") 404
        (.obj [("message", .str "Project not found")]))⟩ :=
  http_error_c2 _ _ 404 [("message", .str "Project not found")]
    (by norm_num) rfl (by norm_num) (by norm_num)

/-- C3 (amended): for every HTTP response received on the first attempt with
status 401 whose body parses as a JSON OBJECT — with or without a
`"message"` field — `_request` raises `AuthenticationError`, with message
taken from the body's `"message"` field or defaulting to `"HTTP 401"`.
(The original claim additionally covered bodies that are not valid JSON;
those instead escape as the untyped `json.JSONDecodeError` raised by
`response.json()` before the status is ever inspected, see the
counterexample.) -/
theorem unauthorized_c3 (cfg : XRPLSaleConfig) (outcomes : Nat → AttemptOutcome)
    (fields : List (String × Json)) (hmr : 0 ≤ cfg.max_retries)
    (h0 : outcomes 0 = .httpResponse 401 (some (.obj fields))) :
    _request cfg outcomes =
      ⟨1, [], .error (.authenticationError
        (dictGet fields "message" (.str "HTTP 401")))⟩ := by
  rw [runAttempts_first_response cfg outcomes 401 _ hmr h0]
  rfl

/-- Counterexample to C3 as stated: a 401 response whose body is not valid
JSON does not produce `AuthenticationError`; `response.json()` raises the
untyped `json.JSONDecodeError` first. -/
theorem unauthorized_c3_counterexample :
    _request { api_key := "k" } (fun _ => .httpResponse 401 none) =
      ⟨1, [], .error .jsonDecodeError⟩ ∧
    RequestFailure.jsonDecodeError.isAuthError = false :=
  ⟨rfl, rfl⟩

/-- Witness for `unauthorized_c3`: a 401 response with body the empty JSON
object, yielding the default message `"HTTP 401"`. -/
theorem unauthorized_c3_witness :
    _request { api_key := "k" } (fun _ => .httpResponse 401 (some (.obj []))) =
      ⟨1, [], .error (.authenticationError (.str "HTTP 401"))⟩ :=
  unauthorized_c3 _ _ [] (by norm_num) rfl

/-- C4: when an HTTP response is received (the transport succeeded) but its
body is not valid JSON, `_request` surfaces that as a failure to the caller
without retrying: exactly one attempt, no backoff sleep, and the JSON decode
failure escapes (`json.JSONDecodeError` is a `ValueError`, which the
`except aiohttp.ClientError` clause does not catch). -/
theorem invalid_json_c4 (cfg : XRPLSaleConfig) (outcomes : Nat → AttemptOutcome)
    (status : Nat) (hmr : 0 ≤ cfg.max_retries)
    (h0 : outcomes 0 = .httpResponse status none) :
    _request cfg outcomes = ⟨1, [], .error .jsonDecodeError⟩ := by
  rw [runAttempts_first_response cfg outcomes status none hmr h0]
  rfl

/-- Witness for `invalid_json_c4`: a 200 response with an unparseable body,
under the default config. -/
theorem invalid_json_c4_witness :
    _request { api_key := "k" } (fun _ => .httpResponse 200 none) =
      ⟨1, [], .error .jsonDecodeError⟩ :=
  invalid_json_c4 _ _ 200 (by norm_num) rfl

/-- C5: evaluation of the URL construction at the failing input.  For the
production environment and the endpoint `"/ping"` (the path
`XRPLSaleClient.ping` passes), `urljoin` treats the root-relative endpoint
as an absolute path and REPLACES the base URL's `/api` path component, so
the resulting URL is `https://xrpl.sale/ping` and does not begin with the
environment base URL `https://xrpl.sale/api`, contrary to the claim.  The
third conjunct records the part of the claim that does hold: a non-enum
environment string is rejected at construction time. -/
theorem url_join_c5_eval :
    requestUrl .production "/ping" = "https://xrpl.sale/ping" ∧
    (_get_base_url .production).data.isPrefixOf
      (requestUrl .production "/ping").data = false ∧
    Environment.fromString "staging" = none :=
  ⟨by decide, by decide, by decide⟩

/-- C10: the config constructor accepts `max_retries` values below 0 without
error, and for every config with `max_retries < 0` a call to `_request`
performs zero network attempts, sleeps never, and returns Python `None`
(the `for` loop over `range(max_retries + 1)` runs no iterations and the
function falls through). -/
theorem negative_retries_c10 (n : Int) (hn : n < 0)
    (outcomes : Nat → AttemptOutcome) :
    (({ api_key := "k", max_retries := n } : XRPLSaleConfig).max_retries = n) ∧
    ∀ cfg : XRPLSaleConfig, cfg.max_retries = n →
      _request cfg outcomes = ⟨0, [], .ok none⟩ := by
  refine ⟨rfl, fun cfg hcfg => ?_⟩
  have h0 : (cfg.max_retries + 1).toNat = 0 := by omega
  unfold _request
  rw [h0]
  rfl

/-- Witness for `negative_retries_c10` at `max_retries = -1`. -/
theorem negative_retries_c10_witness :
    (({ api_key := "k", max_retries := -1 } : XRPLSaleConfig).max_retries = -1) ∧
    ∀ cfg : XRPLSaleConfig, cfg.max_retries = -1 →
      _request cfg (fun _ => .transportError "down") = ⟨0, [], .ok none⟩ :=
  negative_retries_c10 (-1) (by norm_num) (fun _ => .transportError "down")

/-! ## Lemmas about the constant-time comparison -/

/-- The step count of the comparison loop is the number of pairs, whatever
their values: the loop never exits early. -/
theorem ctLoop_snd (l : List (Nat × Nat)) :
    ∀ r n, (ctLoop l r n).2 = n + l.length := by
  induction l with
  | nil => intro r n; simp [ctLoop]
  | cons p t ih =>
    intro r n
    cases p with
    | mk x y =>
      rw [ctLoop, ih]
      simp
      omega

/-- A bitwise OR of naturals is zero exactly when both are. -/
theorem nat_lor_eq_zero (m n : Nat) : m ||| n = 0 ↔ m = 0 ∧ n = 0 := by
  constructor
  · intro h
    have hb : ∀ i, m.testBit i = false ∧ n.testBit i = false := by
      intro i
      have := congrArg (fun x => x.testBit i) h
      simpa [Nat.testBit_or] using this
    exact ⟨Nat.eq_of_testBit_eq fun i => by simp [(hb i).1],
           Nat.eq_of_testBit_eq fun i => by simp [(hb i).2]⟩
  · rintro ⟨rfl, rfl⟩
    simp

/-- The accumulator of the comparison loop ends at zero exactly when it
started at zero and every pair agrees. -/
theorem ctLoop_fst (l : List (Nat × Nat)) :
    ∀ r n, (ctLoop l r n).1 = 0 ↔ r = 0 ∧ ∀ p ∈ l, p.1 ^^^ p.2 = 0 := by
  induction l with
  | nil => intro r n; simp [ctLoop]
  | cons p t ih =>
    intro r n
    cases p with
    | mk x y =>
      rw [ctLoop, ih]
      simp [nat_lor_eq_zero, and_assoc]

/-- For lists of equal length, all zipped XORs vanish exactly when the
lists are equal. -/
theorem zip_xor_eq_zero (xs : List Nat) :
    ∀ ys : List Nat, xs.length = ys.length →
      ((∀ p ∈ xs.zip ys, p.1 ^^^ p.2 = 0) ↔ xs = ys) := by
  induction xs with
  | nil =>
    intro ys h
    cases ys with
    | nil => simp
    | cons y t => simp at h
  | cons x t ih =>
    intro ys h
    cases ys with
    | nil => simp at h
    | cons y u =>
      simp only [List.zip_cons_cons, List.forall_mem_cons, List.cons.injEq]
      rw [ih u (by simpa using h)]
      simp [Nat.xor_eq_zero]

/-- The boolean verdict of `tscmp` is equality of the two lists. -/
theorem tscmp_fst (xs ys : List Nat) : (tscmp xs ys).1 = decide (xs = ys) := by
  by_cases h : xs.length = ys.length
  · by_cases hxy : xs = ys
    · subst hxy
      have h0 : (ctLoop (xs.zip xs) 0 0).1 = 0 :=
        (ctLoop_fst _ _ _).mpr ⟨rfl, (zip_xor_eq_zero xs xs rfl).mpr rfl⟩
      simp [tscmp, h0]
    · have h1 : (ctLoop (xs.zip ys) 0 0).1 ≠ 0 := by
        intro h0
        exact hxy ((zip_xor_eq_zero xs ys h).mp ((ctLoop_fst _ _ _).mp h0).2)
      simp [tscmp, h, hxy, h1]
  · have h1 : (ctLoop (ys.zip ys) 1 0).1 ≠ 0 := by
      intro h0
      exact absurd ((ctLoop_fst _ _ _).mp h0).1 one_ne_zero
    have hxy : xs ≠ ys := fun hh => h (by rw [hh])
    simp [tscmp, h, hxy, h1]

/-- The step count of `tscmp` is the length of its second argument, for ALL
inputs: equal or different contents, equal or different lengths. -/
theorem tscmp_snd (xs ys : List Nat) : (tscmp xs ys).2 = ys.length := by
  by_cases h : xs.length = ys.length <;>
    simp [tscmp, h, ctLoop_snd, List.length_zip]

/-- Character code points determine characters. -/
theorem charToNat_injective : Function.Injective Char.toNat := by
  intro c d h
  exact Char.ext (UInt32.eq_of_val_eq (Fin.ext h))

/-- `hmac.compare_digest` coincides with string equality (it differs from
`==` only in timing, which `compare_digest_steps` models). -/
theorem compare_digest_eq (a b : String) : compare_digest a b = decide (a = b) := by
  rw [compare_digest, tscmp_fst]
  apply decide_eq_decide.mpr
  rw [(List.map_injective_iff.mpr charToNat_injective).eq_iff]
  exact ⟨fun h => String.ext h, congrArg String.data⟩

/-- The comparison cost inside `verify_signature` is the length of the
supplied signature, regardless of every character of either string. -/
theorem compare_digest_steps_eq (a b : String) :
    compare_digest_steps a b = b.length := by
  rw [compare_digest_steps, tscmp_snd, List.length_map]
  rfl

/-! ## Claims about the webhook verifier -/

/-- C6 (amended): round-trip.  For every payload and nonempty secret `S`,
`verify_signature` accepts the signature `"sha256=" + hex(HMAC-SHA256(S, payload))`
produced with `S`; and under any other nonempty secret `S'` it returns the
boolean stating whether `S'` produces the same expected signature string
(equivalently, the same HMAC) — in particular `false` whenever the MACs
differ.  (The original claim said `false` for EVERY `S' ≠ S`; distinct
secrets can share a MAC — HMAC zero-pads short keys to the block size, see
the counterexample — and the empty secret raises the configuration error
instead of returning, so it is excluded here.) -/
theorem signature_roundtrip_c6 (payload S S' : String)
    (instSecret : Option String) (hS : S ≠ "") (hS' : S' ≠ "") :
    verify_signature payload (expected_signature S payload) (some S) instSecret =
      .ok true ∧
    verify_signature payload (expected_signature S payload) (some S') instSecret =
      .ok (decide (expected_signature S' payload = expected_signature S payload)) := by
  constructor
  · simp [verify_signature, optTruthy, hS, compare_digest_eq]
  · simp [verify_signature, optTruthy, hS', compare_digest_eq]

/-- Witness for `signature_roundtrip_c6` at payload `"payload"`, secret
`"secret"`, other secret `"other"`. -/
theorem signature_roundtrip_c6_witness :
    verify_signature "payload" (expected_signature "secret" "payload")
      (some "secret") none = .ok true ∧
    verify_signature "payload" (expected_signature "secret" "payload")
      (some "other") none =
      .ok (decide (expected_signature "other" "payload" =
                   expected_signature "secret" "payload")) :=
  signature_roundtrip_c6 "payload" "secret" "other" none (by decide) (by decide)

/-- Counterexample to C6 as stated: the secrets `"secret"` and
`"secret\x00"` differ as strings, yet a signature produced with `"secret"`
verifies as `true` under `"secret\x00"`: HMAC zero-pads keys shorter than
the 64-byte block, so both secrets yield the same padded key and the same
MAC.  Additionally, for the empty secret `verify_signature` raises the
configuration error rather than returning `true` on its own signature. -/
theorem signature_roundtrip_c6_counterexample :
    ("secret\x00" ≠ "secret") ∧
    verify_signature "payload" (expected_signature "secret" "payload")
      (some "secret\x00") none = .ok true ∧
    verify_signature "payload" (expected_signature "" "payload")
      (some "") none =
      .error (.xrplSaleError "Webhook secret is required for signature verification") := by
  refine ⟨by decide, ?_, rfl⟩
  have hkey : hmacBlockKey (strBytes "secret\x00") = hmacBlockKey (strBytes "secret") := by
    decide
  have hexp : expected_signature "secret\x00" "payload" =
      expected_signature "secret" "payload" := by
    unfold expected_signature hmacSha256
    rw [hkey]
  have h1 : verify_signature "payload" (expected_signature "secret" "payload")
      (some "secret\x00") none =
      .ok (compare_digest (expected_signature "secret\x00" "payload")
        (expected_signature "secret" "payload")) := rfl
  rw [h1, hexp, compare_digest_eq]
  simp

/-- C8: `verify_signature` resolves the secret as the explicit `secret`
argument when one is provided (a nonempty string), overriding the
instance-configured secret; it raises the configuration `XRPLSaleError` if
and only if neither an explicit nor an instance secret is available (where
Python treats `None` and `""` as unavailable); and under an available secret
it always RETURNS a boolean — the comparison verdict — never raising on a
mismatch. -/
theorem secret_resolution_c8 (payload signature : String)
    (secret instanceSecret : Option String) :
    (verify_signature payload signature secret instanceSecret =
        .error (.xrplSaleError "Webhook secret is required for signature verification") ↔
      optTruthy secret = false ∧ optTruthy instanceSecret = false) ∧
    (∀ s, optTruthy secret = true → secret = some s →
      verify_signature payload signature secret instanceSecret =
        .ok (compare_digest (expected_signature s payload) signature)) ∧
    (∀ s, optTruthy secret = false → optTruthy instanceSecret = true →
      instanceSecret = some s →
      verify_signature payload signature secret instanceSecret =
        .ok (compare_digest (expected_signature s payload) signature)) := by
  refine ⟨?_, ?_, ?_⟩
  · cases secret with
    | none =>
      cases instanceSecret with
      | none => simp [verify_signature, optTruthy]
      | some t =>
        by_cases ht : t = ""
        · subst ht; simp [verify_signature, optTruthy]
        · simp [verify_signature, optTruthy, ht]
    | some s =>
      by_cases hs : s = ""
      · subst hs
        cases instanceSecret with
        | none => simp [verify_signature, optTruthy]
        | some t =>
          by_cases ht : t = ""
          · subst ht; simp [verify_signature, optTruthy]
          · simp [verify_signature, optTruthy, ht]
      · simp [verify_signature, optTruthy, hs]
  · intro s htr heq
    subst heq
    have hs : s ≠ "" := by simpa [optTruthy] using htr
    simp [verify_signature, optTruthy, hs]
  · intro s hf ht heq
    subst heq
    have hs : s ≠ "" := by simpa [optTruthy] using ht
    simp [verify_signature, hf, hs]

/-- Witness for `secret_resolution_c8`: an explicit secret wins over a
configured one, a configured one is used when no explicit one is given, and
two missing secrets raise the configuration error. -/
theorem secret_resolution_c8_witness :
    verify_signature "p" "sig" (some "k") (some "other") =
      .ok (compare_digest (expected_signature "k" "p") "sig") ∧
    verify_signature "p" "sig" none (some "k2") =
      .ok (compare_digest (expected_signature "k2" "p") "sig") ∧
    verify_signature "p" "sig" none none =
      .error (.xrplSaleError "Webhook secret is required for signature verification") :=
  ⟨(secret_resolution_c8 "p" "sig" (some "k") (some "other")).2.1 "k" rfl rfl,
   (secret_resolution_c8 "p" "sig" none (some "k2")).2.2 "k2" rfl rfl rfl,
   (secret_resolution_c8 "p" "sig" none none).1.mpr ⟨rfl, rfl⟩⟩

/-- C9: the comparison `verify_signature` performs is constant-time in the
modelled cost (iterations of the `compare_digest` loop, the model of
execution time): the cost equals the length of the supplied signature — so
it does not depend on the position of the first mismatched character, and
there is no length short-circuit (the count is the same even when the
expected string's length differs) — and `verify_signature` is a pure
function: the same (payload, signature, secret) triple always yields the
same verdict. -/
theorem constant_time_c9 (payload secret sig sig' : String) :
    compare_digest_steps (expected_signature secret payload) sig = sig.length ∧
    (sig.length = sig'.length →
      compare_digest_steps (expected_signature secret payload) sig =
        compare_digest_steps (expected_signature secret payload) sig') ∧
    ∀ instanceSecret,
      verify_signature payload sig (some secret) instanceSecret =
        verify_signature payload sig (some secret) instanceSecret := by
  refine ⟨compare_digest_steps_eq _ _, fun h => ?_, fun _ => rfl⟩
  rw [compare_digest_steps_eq, compare_digest_steps_eq, h]

/-- Witness for `constant_time_c9`: two candidate signatures of equal
length, one differing from the expected string at the first character and
one at the last, cost the same number of comparison steps. -/
theorem constant_time_c9_witness :
    compare_digest_steps (expected_signature "k" "p") "aaaa" =
      ("aaaa" : String).length ∧
    compare_digest_steps (expected_signature "k" "p") "aaaa" =
      compare_digest_steps (expected_signature "k" "p") "bbbz" ∧
    verify_signature "p" "aaaa" (some "k") none =
      verify_signature "p" "aaaa" (some "k") none :=
  ⟨(constant_time_c9 "p" "k" "aaaa" "bbbz").1,
   (constant_time_c9 "p" "k" "aaaa" "bbbz").2.1 rfl,
   (constant_time_c9 "p" "k" "aaaa" "bbbz").2.2 none⟩

/-! ## Claims about the webhook payload parsing -/

/-- Whenever the `type` field is absent or fails the enum coercion, the
pydantic model constructor rejects the payload (whatever its other
fields). -/
theorem validateWebhookEvent_none_of_type (fields : List (String × Json))
    (h : (fields.lookup "type").bind coerceEventType = none) :
    validateWebhookEvent fields = none := by
  unfold validateWebhookEvent
  cases h1 : (fields.lookup "id").bind coerceStr <;> simp [h1, h]

/-- C7 (amended): `parse_webhook` either returns a `WebhookEvent` or fails;
text that is not valid JSON and JSON whose top level is not a mapping are
each rejected with the TYPED payload error (`XRPLSaleError`, via the
`except (json.JSONDecodeError, TypeError)` clause); but a JSON mapping
missing the `type` field, or whose `type` is not a recognized event name,
makes `WebhookEvent(**data)` raise `pydantic.ValidationError` — a
`ValueError` the except clause does not catch — which escapes as an UNTYPED
crash rather than the typed payload error.  (The original claim said the
missing-`type` and unrecognized-`type` cases also produce the typed error
and never an untyped crash.) -/
theorem parse_webhook_c7 (payload : String) :
    (json_loads payload = none →
      parse_webhook payload = .error (.xrplSaleError "Invalid webhook payload")) ∧
    (∀ j, json_loads payload = some j → (∀ fields, j ≠ .obj fields) →
      parse_webhook payload = .error (.xrplSaleError "Invalid webhook payload")) ∧
    (∀ fields, json_loads payload = some (.obj fields) →
      fields.lookup "type" = none →
      parse_webhook payload = .error .pydanticValidationError) ∧
    (∀ fields t, json_loads payload = some (.obj fields) →
      fields.lookup "type" = some t → coerceEventType t = none →
      parse_webhook payload = .error .pydanticValidationError) ∧
    (∀ fields e, json_loads payload = some (.obj fields) →
      validateWebhookEvent fields = some e →
      parse_webhook payload = .ok e) := by
  refine ⟨?_, ?_, ?_, ?_, ?_⟩
  · intro h
    simp [parse_webhook, h]
  · intro j hj hne
    cases j with
    | obj fs => exact absurd rfl (hne fs)
    | null => simp [parse_webhook, hj]
    | bool b => simp [parse_webhook, hj]
    | num n => simp [parse_webhook, hj]
    | str s => simp [parse_webhook, hj]
    | arr es => simp [parse_webhook, hj]
  · intro fields hj hty
    have hv : validateWebhookEvent fields = none :=
      validateWebhookEvent_none_of_type fields (by rw [hty]; rfl)
    simp [parse_webhook, hj, hv]
  · intro fields t hj hty hct
    have hv : validateWebhookEvent fields = none :=
      validateWebhookEvent_none_of_type fields (by rw [hty]; exact hct)
    simp [parse_webhook, hj, hv]
  · intro fields e hj hv
    simp [parse_webhook, hj, hv]

/-- Witness for `parse_webhook_c7`: non-JSON text and a JSON array get the
typed error; a mapping without `type` and a mapping with an unknown `type`
escape as the untyped validation error; a full well-formed event parses. -/
theorem parse_webhook_c7_witness :
    parse_webhook "not json" = .error (.xrplSaleError "Invalid webhook payload") ∧
    parse_webhook "[1]" = .error (.xrplSaleError "Invalid webhook payload") ∧
    parse_webhook "\x7b\"id\": \"e\"\x7d" = .error .pydanticValidationError ∧
    parse_webhook "\x7b\"type\": \"bogus\"\x7d" = .error .pydanticValidationError ∧
    parse_webhook
      "\x7b\"id\": \"e1\", \"type\": \"project.created\", \"data\": \x7b\x7d, \"timestamp\": 1700000000, \"version\": \"1.0\"\x7d" =
      .ok ⟨"e1", .project_created, [], .fromUnix 1700000000, "1.0"⟩ :=
  ⟨(parse_webhook_c7 "not json").1 rfl,
   (parse_webhook_c7 "[1]").2.1 (.arr [.num 1]) rfl
     (fun _ h => Json.noConfusion h),
   (parse_webhook_c7 "\x7b\"id\": \"e\"\x7d").2.2.1 [("id", .str "e")] rfl rfl,
   (parse_webhook_c7 "\x7b\"type\": \"bogus\"\x7d").2.2.2.1
     [("type", .str "bogus")] (.str "bogus") rfl rfl rfl,
   (parse_webhook_c7
     "\x7b\"id\": \"e1\", \"type\": \"project.created\", \"data\": \x7b\x7d, \"timestamp\": 1700000000, \"version\": \"1.0\"\x7d").2.2.2.2
     [("id", .str "e1"), ("type", .str "project.created"), ("data", .obj []),
      ("timestamp", .num 1700000000), ("version", .str "1.0")]
     ⟨"e1", .project_created, [], .fromUnix 1700000000, "1.0"⟩ rfl rfl⟩

/-- Counterexample to C7 as stated: the payload `"\x7b\x7d"` is valid JSON
with the `type` field missing; the claim requires the typed payload error,
but `WebhookEvent(**data)` raises `pydantic.ValidationError`, which the
`except` clause does not catch — an untyped crash. -/
theorem parse_webhook_c7_counterexample :
    parse_webhook "\x7b\x7d" = .error .pydanticValidationError ∧
    WebhookFailure.pydanticValidationError.isTyped = false :=
  ⟨rfl, rfl⟩

/-! ## Sanity evaluations of the embedding on concrete inputs -/

example :
    _request { api_key := "k" } (fun _ => .httpResponse 404 (some (.arr []))) =
      ⟨1, [], .error .attributeError⟩ := rfl

example :
    _request { api_key := "k", max_retries := 1 } (fun _ => .transportError "boom") =
      ⟨2, [1 * 2 ^ 0], .error (.networkError "Network error: boom")⟩ := rfl

example : requestUrl .testnet "/projects" = "https://testnet.xrpl.sale/projects" := by
  decide

example : urljoin "https://xrpl.sale/api" "" = "https://xrpl.sale/api" := by decide

example : urljoin "https://xrpl.sale/api/v1" "ping" = "https://xrpl.sale/api/ping" := by
  decide

example : Environment.fromString "production" = some .production := rfl

example : json_loads "[1, 2, -3]" = some (.arr [.num 1, .num 2, .num (-3)]) := rfl

example : json_loads "\x7b\"a\": true\x7d" = some (.obj [("a", .bool true)]) := rfl

example : json_loads "[1,]" = none := rfl

example : compare_digest "abc" "abc" = true := rfl

example : compare_digest "abc" "abd" = false := rfl

example : compare_digest "abc" "ab" = false := rfl

example : compare_digest_steps "abcd" "ab" = 2 := rfl

example : isIsoDatetime "2024-01-01T00:00:00Z" = true := rfl

example : WebhookEventType.fromString "tokens.distributed" = some .tokens_distributed := rfl
